import Mathlib

/-!
Shallow embedding of the table-sizing hook
`src/frontend/src/components/widgets/DataFrame/hooks/useTableSizer.ts`.

The hook splits into a pure bounds calculator (the straight-line code
computing `maxHeight`, `initialHeight`, `maxWidth`, `initialWidth`) and a
small synchronizer: three layout effects that overwrite the resizable-size
state when the container width, the row count, or the full-screen flag
changes.  Numbers are modelled as `Nat` (the proto fields are unsigned
integers and all arithmetic stays non-negative); an optional proto field is
an `Option Nat`, and JavaScript truthiness of such a field (`if
(element.height)`) is `jsTruthy`.
-/

set_option autoImplicit false

/-- Editing modes of the Arrow proto (`ArrowProto.EditingMode`). -/
inductive EditingMode where
  | READ_ONLY
  | FIXED
  | DYNAMIC
deriving DecidableEq, Repr

/-- The fields of the `ArrowProto` element the hook reads: optional
configured height and width, the use-container-width flag, and the editing
mode. -/
structure ArrowElement where
  height : Option Nat
  width : Option Nat
  useContainerWidth : Bool
  editingMode : EditingMode
deriving DecidableEq, Repr

/-- JavaScript truthiness of an optional numeric proto field: `undefined`
and `0` are falsy. -/
def jsTruthy : Option Nat → Bool
  | some v => v != 0
  | none => false

/-- `notNullOrUndefined` from `src/lib/utils`: the field is present (it may
still be `0`). -/
def notNullOrUndefined (v : Option Nat) : Bool :=
  v.isSome

def ROW_HEIGHT : Nat := 35

def MIN_COLUMN_WIDTH : Nat := 35

/-- Min width for the resizable table container. -/
def MIN_TABLE_WIDTH : Nat := MIN_COLUMN_WIDTH + 3

/-- Min height for the resizable table container. -/
def MIN_TABLE_HEIGHT : Nat := 2 * ROW_HEIGHT + 3

def DEFAULT_TABLE_HEIGHT : Nat := 400

/-- The automatic table height: `(numRows + 1) * ROW_HEIGHT + 1 + 2`, plus
one extra row height in DYNAMIC editing mode, floored at
`MIN_TABLE_HEIGHT` (lines 75–83 of the source). -/
def naturalMaxHeight (element : ArrowElement) (numRows : Nat) : Nat :=
  max
    ((numRows + 1) * ROW_HEIGHT + 1 + 2 +
      (if element.editingMode = EditingMode.DYNAMIC then ROW_HEIGHT else 0))
    MIN_TABLE_HEIGHT

/-- The height outputs of the calculator. -/
structure HeightBounds where
  maxHeight : Nat
  initialHeight : Nat
deriving DecidableEq, Repr

/-- Height computation of `useTableSizer` (lines 75–103): natural max,
default clamp, explicit `element.height` override, container-height
clamp, and the fill-to-max rule for unconfigured tables in a bounded
container. -/
def computeHeights (element : ArrowElement) (numRows : Nat)
    (containerHeight : Option Nat) : HeightBounds :=
  let maxHeight := naturalMaxHeight element numRows
  let initialHeight := min maxHeight DEFAULT_TABLE_HEIGHT
  let initialHeight :=
    if jsTruthy element.height then
      max (element.height.getD 0) MIN_TABLE_HEIGHT
    else initialHeight
  let maxHeight :=
    if jsTruthy element.height then
      max (element.height.getD 0) maxHeight
    else maxHeight
  let initialHeight :=
    if jsTruthy containerHeight then
      min initialHeight (containerHeight.getD 0)
    else initialHeight
  let maxHeight :=
    if jsTruthy containerHeight then
      min maxHeight (containerHeight.getD 0)
    else maxHeight
  let initialHeight :=
    if jsTruthy containerHeight ∧ ¬ jsTruthy element.height then maxHeight
    else initialHeight
  { maxHeight := maxHeight, initialHeight := initialHeight }

/-- The width outputs of the calculator; `initialWidth = none` is the
"auto, set from column widths" case. -/
structure WidthBounds where
  maxWidth : Nat
  initialWidth : Option Nat
deriving DecidableEq, Repr

/-- Width computation of `useTableSizer` (lines 105–118). -/
def computeWidths (element : ArrowElement) (containerWidth : Nat) :
    WidthBounds :=
  let maxWidth := containerWidth
  if element.useContainerWidth then
    { maxWidth := maxWidth, initialWidth := some containerWidth }
  else if jsTruthy element.width then
    { maxWidth :=
        min (max (element.width.getD 0) maxWidth) containerWidth,
      initialWidth :=
        some (min (max (element.width.getD 0) MIN_TABLE_WIDTH)
          containerWidth) }
  else
    { maxWidth := maxWidth, initialWidth := none }

/-- All sizing outputs of the calculator part of the hook. -/
structure SizerBounds where
  rowHeight : Nat
  minHeight : Nat
  maxHeight : Nat
  minWidth : Nat
  maxWidth : Nat
  initialWidth : Option Nat
  initialHeight : Nat
deriving DecidableEq, Repr

/-- The pure straight-line part of `useTableSizer`: everything computed
before the `useState` call, as a function of the element, the row count
and the container bounds. -/
def computeBounds (element : ArrowElement) (numRows : Nat)
    (containerWidth : Nat) (containerHeight : Option Nat) : SizerBounds :=
  let hb := computeHeights element numRows containerHeight
  let wb := computeWidths element containerWidth
  { rowHeight := ROW_HEIGHT
    minHeight := MIN_TABLE_HEIGHT
    maxHeight := hb.maxHeight
    minWidth := MIN_TABLE_WIDTH
    maxWidth := wb.maxWidth
    initialWidth := wb.initialWidth
    initialHeight := hb.initialHeight }

/-- The `re-resizable` size value: a pixel number or the `"100%"`
fill-container sentinel. -/
inductive SizeWidth where
  | px : Nat → SizeWidth
  | fillContainer
deriving DecidableEq, Repr

/-- The `resizableSize` state of the hook. -/
structure ResizableSize where
  width : SizeWidth
  height : Nat
deriving DecidableEq, Repr

/-- `initialWidth || "100%"` (lines 121 and 162): an absent or zero width
falls back to the fill-container sentinel. -/
def widthOrFill : Option Nat → SizeWidth
  | some w => if w = 0 then SizeWidth.fillContainer else SizeWidth.px w
  | none => SizeWidth.fillContainer

/-- The initial `resizableSize` state (lines 120–123). -/
def initialResizableSize (element : ArrowElement) (numRows : Nat)
    (containerWidth : Nat) (containerHeight : Option Nat) : ResizableSize :=
  let b := computeBounds element numRows containerWidth containerHeight
  { width := widthOrFill b.initialWidth, height := b.initialHeight }

/-- The layout effect on `[containerWidth]` (lines 125–138): when the ref
is mounted, the element uses the container width and the current width is
still the sentinel, adopt the new container width; otherwise leave the
state alone. -/
def containerWidthEffect (refMounted : Bool) (element : ArrowElement)
    (containerWidth : Nat) (s : ResizableSize) : ResizableSize :=
  if refMounted ∧ element.useContainerWidth ∧
      s.width = SizeWidth.fillContainer then
    { width := SizeWidth.px containerWidth, height := s.height }
  else s

/-- The layout effect on `[numRows]` (lines 140–148): when the ref is
mounted, reset the height to the freshly computed `initialHeight`, keeping
the width. -/
def numRowsEffect (refMounted : Bool) (element : ArrowElement)
    (numRows : Nat) (containerWidth : Nat) (containerHeight : Option Nat)
    (s : ResizableSize) : ResizableSize :=
  if refMounted then
    { width := s.width,
      height :=
        (computeBounds element numRows containerWidth
          containerHeight).initialHeight }
  else s

/-- The layout effect on `[isFullScreen]` (lines 150–167): entering
full screen stretches to `maxWidth`/`maxHeight` (or the sentinel width
when columns are not stretched); leaving restores the initial size. -/
def fullScreenEffect (refMounted : Bool) (element : ArrowElement)
    (numRows : Nat) (containerWidth : Nat) (containerHeight : Option Nat)
    (isFullScreen : Bool) (s : ResizableSize) : ResizableSize :=
  if refMounted then
    let b := computeBounds element numRows containerWidth containerHeight
    if isFullScreen then
      let stretchColumns : Bool :=
        element.useContainerWidth ||
          (notNullOrUndefined element.width && element.width.getD 0 > 0)
      { width :=
          if stretchColumns then SizeWidth.px b.maxWidth
          else SizeWidth.fillContainer,
        height := b.maxHeight }
    else
      { width := widthOrFill b.initialWidth, height := b.initialHeight }
  else s

/-- A fixed example element with no configured size, used by witnesses. -/
def plainElement : ArrowElement :=
  { height := none, width := none, useContainerWidth := false,
    editingMode := EditingMode.READ_ONLY }

/-- The natural maximum height never falls below the minimum table
height. -/
theorem minTableHeight_le_naturalMaxHeight (element : ArrowElement)
    (numRows : Nat) :
    MIN_TABLE_HEIGHT ≤ naturalMaxHeight element numRows :=
  le_max_right _ _

/-- Claim C1: with no configured height and no container bound, the
calculator's maxHeight is one row height per data row plus a header row,
plus 3 pixels of border and selection-ring slack, plus one extra row
height in DYNAMIC editing mode, floored at the minimum table height 73. -/
theorem C1_maxHeight_formula (numRows containerWidth : Nat)
    (w : Option Nat) (u : Bool) (em : EditingMode) :
    (computeBounds
        { height := none, width := w, useContainerWidth := u,
          editingMode := em } numRows containerWidth none).maxHeight =
      max
        ((numRows + 1) * 35 + 3 +
          (if em = EditingMode.DYNAMIC then 35 else 0)) 73 := by
  by_cases hem : em = EditingMode.DYNAMIC <;>
    simp [computeBounds, computeHeights, naturalMaxHeight, jsTruthy, hem,
      ROW_HEIGHT, MIN_TABLE_HEIGHT, DEFAULT_TABLE_HEIGHT]

/-- Claim C2 counterexample: with a truthy containerHeight of 50 pixels
(below the 73-pixel minimum) the resolved initialHeight is 50, violating
the claimed invariant initialHeight ≥ minTableHeight. -/
theorem C2_counterexample_small_container :
    (computeBounds plainElement 0 800 (some 50)).initialHeight <
      MIN_TABLE_HEIGHT := by decide

/-- Claim C2 (amended): for every input initialHeight ≤ maxHeight, and
initialHeight ≥ minTableHeight (73) holds provided any truthy supplied
containerHeight is itself at least 73; a bounded container shorter than
the minimum clamps initialHeight below it. -/
theorem C2_amended_height_bounds (element : ArrowElement)
    (numRows containerWidth : Nat) (containerHeight : Option Nat) :
    (computeBounds element numRows containerWidth
        containerHeight).initialHeight ≤
      (computeBounds element numRows containerWidth
        containerHeight).maxHeight ∧
    ((jsTruthy containerHeight = true →
        MIN_TABLE_HEIGHT ≤ containerHeight.getD 0) →
      MIN_TABLE_HEIGHT ≤
        (computeBounds element numRows containerWidth
          containerHeight).initialHeight) := by
  have hnat := minTableHeight_le_naturalMaxHeight element numRows
  simp only [computeBounds, computeHeights]
  generalize naturalMaxHeight element numRows = M at hnat ⊢
  simp only [MIN_TABLE_HEIGHT, ROW_HEIGHT, DEFAULT_TABLE_HEIGHT] at hnat ⊢
  constructor
  · split_ifs <;> omega
  · intro hch
    by_cases hB : jsTruthy containerHeight = true
    · have hc := hch hB
      simp only [MIN_TABLE_HEIGHT, ROW_HEIGHT] at hc
      split_ifs <;> omega
    · split_ifs <;> omega

/-- Witness for the amended C2 at rowCount 5, containerWidth 800,
containerHeight 600. -/
theorem C2_amended_height_bounds_witness :
    (computeBounds plainElement 5 800 (some 600)).initialHeight ≤
      (computeBounds plainElement 5 800 (some 600)).maxHeight ∧
    MIN_TABLE_HEIGHT ≤
      (computeBounds plainElement 5 800 (some 600)).initialHeight :=
  ⟨(C2_amended_height_bounds plainElement 5 800 (some 600)).1,
    (C2_amended_height_bounds plainElement 5 800 (some 600)).2
      (fun _ => by decide)⟩

/-- Claim C9: the calculator's maxWidth always equals containerWidth; the
update in the configured-width branch is a no-op. -/
theorem C9_maxWidth_eq_containerWidth (element : ArrowElement)
    (numRows containerWidth : Nat) (containerHeight : Option Nat) :
    (computeBounds element numRows containerWidth
        containerHeight).maxWidth = containerWidth := by
  simp only [computeBounds, computeWidths]
  split_ifs <;> simp

/-- Claim C10: with the resizable ref unmounted, every reactive rule
leaves the resolved size unchanged. -/
theorem C10_null_ref_no_update (element : ArrowElement)
    (numRows containerWidth : Nat) (containerHeight : Option Nat)
    (isFullScreen : Bool) (s : ResizableSize) :
    containerWidthEffect false element containerWidth s = s ∧
    numRowsEffect false element numRows containerWidth containerHeight
        s = s ∧
    fullScreenEffect false element numRows containerWidth containerHeight
        isFullScreen s = s := by
  refine ⟨?_, ?_, ?_⟩ <;>
    simp [containerWidthEffect, numRowsEffect, fullScreenEffect]

/-- Claim C3: with a truthy containerHeight and no configured height, the
calculator resolves initialHeight = maxHeight = min(naturalMaxHeight, c):
an unconfigured table in a bounded container fills the clamped maximum. -/
theorem C3_unconfigured_bounded_container (element : ArrowElement)
    (numRows containerWidth c : Nat) (hc : c ≠ 0)
    (hh : jsTruthy element.height = false) :
    (computeBounds element numRows containerWidth
        (some c)).initialHeight =
      (computeBounds element numRows containerWidth (some c)).maxHeight ∧
    (computeBounds element numRows containerWidth (some c)).maxHeight =
      min (naturalMaxHeight element numRows) c := by
  have hct : jsTruthy (some c) = true := by simp [jsTruthy, hc]
  simp [computeBounds, computeHeights, hh, hct]

/-- Witness for C3: rowCount 5, containerWidth 800, containerHeight 600
give initialHeight = maxHeight = min(213, 600) = 213. -/
theorem C3_unconfigured_bounded_container_witness :
    (computeBounds plainElement 5 800 (some 600)).initialHeight =
      (computeBounds plainElement 5 800 (some 600)).maxHeight ∧
    (computeBounds plainElement 5 800 (some 600)).maxHeight =
      min (naturalMaxHeight plainElement 5) 600 :=
  C3_unconfigured_bounded_container plainElement 5 800 600 (by decide)
    (by decide)

/-- Claim C4: toggling full screen on (with the ref mounted) sets the
resolved size to maxWidth when columns stretch (useContainerWidth, or a
present configured width that is positive), the fill sentinel otherwise,
and maxHeight, all recomputed under the containerHeight bound. -/
theorem C4_fullscreen_enter (element : ArrowElement)
    (numRows containerWidth : Nat) (containerHeight : Option Nat)
    (s : ResizableSize) :
    fullScreenEffect true element numRows containerWidth containerHeight
        true s =
      { width :=
          if element.useContainerWidth = true ∨
              (element.width.isSome ∧ 0 < element.width.getD 0) then
            SizeWidth.px
              ((computeBounds element numRows containerWidth
                containerHeight).maxWidth)
          else SizeWidth.fillContainer,
        height :=
          (computeBounds element numRows containerWidth
            containerHeight).maxHeight } := by
  rcases element with ⟨eh, ew, u, em⟩
  cases u <;> cases ew <;>
    simp [fullScreenEffect, notNullOrUndefined]

/-- Claim C5: toggling full screen off (with the ref mounted) restores the
pre-full-screen policy values: initialWidth when defined (the sentinel
otherwise) and initialHeight. -/
theorem C5_fullscreen_exit (element : ArrowElement)
    (numRows containerWidth : Nat) (containerHeight : Option Nat)
    (s : ResizableSize) (hcw : 0 < containerWidth) :
    fullScreenEffect true element numRows containerWidth containerHeight
        false s =
      { width :=
          match (computeBounds element numRows containerWidth
              containerHeight).initialWidth with
          | some w => SizeWidth.px w
          | none => SizeWidth.fillContainer,
        height :=
          (computeBounds element numRows containerWidth
            containerHeight).initialHeight } := by
  cases hiw : (computeWidths element containerWidth).initialWidth with
  | none => simp [fullScreenEffect, computeBounds, widthOrFill, hiw]
  | some w =>
      have hwpos : 0 < w := by
        simp only [computeWidths, MIN_TABLE_WIDTH, MIN_COLUMN_WIDTH] at hiw
        split_ifs at hiw <;> simp at hiw <;> omega
      simp [fullScreenEffect, computeBounds, widthOrFill, hiw, hwpos.ne']

/-- Witness for C5 at containerWidth 800 on the plain element. -/
theorem C5_fullscreen_exit_witness :
    fullScreenEffect true plainElement 5 800 none false
        { width := SizeWidth.px 300, height := 120 } =
      { width :=
          match (computeBounds plainElement 5 800 none).initialWidth with
          | some w => SizeWidth.px w
          | none => SizeWidth.fillContainer,
        height := (computeBounds plainElement 5 800 none).initialHeight } :=
  C5_fullscreen_exit plainElement 5 800 none
    { width := SizeWidth.px 300, height := 120 } (by decide)

/-- Claim C6: with useContainerWidth off and a truthy configured width,
initialWidth = min(max(width, minTableWidth), containerWidth) and
maxWidth = min(max(width, containerWidth), containerWidth); a configured
width above the container silently yields initialWidth = containerWidth. -/
theorem C6_configured_width (w numRows containerWidth : Nat)
    (containerHeight eh : Option Nat) (em : EditingMode) (hw : w ≠ 0) :
    (computeBounds
        { height := eh, width := some w, useContainerWidth := false,
          editingMode := em } numRows containerWidth
        containerHeight).initialWidth =
      some (min (max w MIN_TABLE_WIDTH) containerWidth) ∧
    (computeBounds
        { height := eh, width := some w, useContainerWidth := false,
          editingMode := em } numRows containerWidth
        containerHeight).maxWidth =
      min (max w containerWidth) containerWidth ∧
    (containerWidth < w →
      (computeBounds
          { height := eh, width := some w, useContainerWidth := false,
            editingMode := em } numRows containerWidth
          containerHeight).initialWidth = some containerWidth) := by
  refine ⟨?_, ?_, ?_⟩ <;>
    simp [computeBounds, computeWidths, jsTruthy, hw, MIN_TABLE_WIDTH,
      MIN_COLUMN_WIDTH]
  intro hlt
  omega

/-- Witness for C6: configured width 2000 against container width 800
shrinks to 800. -/
theorem C6_configured_width_witness :
    (computeBounds
        { height := none, width := some 2000, useContainerWidth := false,
          editingMode := EditingMode.READ_ONLY } 5 800 none).initialWidth =
      some (min (max 2000 MIN_TABLE_WIDTH) 800) ∧
    (computeBounds
        { height := none, width := some 2000, useContainerWidth := false,
          editingMode := EditingMode.READ_ONLY } 5 800 none).maxWidth =
      min (max 2000 800) 800 ∧
    (800 < 2000 →
      (computeBounds
          { height := none, width := some 2000, useContainerWidth := false,
            editingMode := EditingMode.READ_ONLY } 5 800
          none).initialWidth = some 800) :=
  C6_configured_width 2000 5 800 none none EditingMode.READ_ONLY
    (by decide)

/-- Claim C7: the container-width rule fires exactly when the element uses
the container width and the current width is still the fill sentinel, and
it then updates only the width; with the flag off or a concrete pixel
width the state is untouched. -/
theorem C7_container_width_rule (element : ArrowElement)
    (containerWidth : Nat) (s : ResizableSize) :
    (element.useContainerWidth = true →
      s.width = SizeWidth.fillContainer →
      containerWidthEffect true element containerWidth s =
        { width := SizeWidth.px containerWidth, height := s.height }) ∧
    (element.useContainerWidth = false →
      containerWidthEffect true element containerWidth s = s) ∧
    (∀ n, s.width = SizeWidth.px n →
      containerWidthEffect true element containerWidth s = s) := by
  refine ⟨fun hu hw => ?_, fun hu => ?_, fun n hn => ?_⟩ <;>
    simp [containerWidthEffect, *]

/-- Witness for C7: a mounted, use-container-width element with sentinel
width adopts the new container width 500. -/
theorem C7_container_width_rule_witness :
    containerWidthEffect true
        { height := none, width := none, useContainerWidth := true,
          editingMode := EditingMode.READ_ONLY } 500
        { width := SizeWidth.fillContainer, height := 213 } =
      { width := SizeWidth.px 500, height := 213 } :=
  (C7_container_width_rule
      { height := none, width := none, useContainerWidth := true,
        editingMode := EditingMode.READ_ONLY } 500
      { width := SizeWidth.fillContainer, height := 213 }).1 rfl rfl

/-- Claim C8: each reactive rule is idempotent: applying it twice with the
same trigger inputs gives the same resolved size as applying it once. -/
theorem C8_rules_idempotent (refMounted : Bool) (element : ArrowElement)
    (numRows containerWidth : Nat) (containerHeight : Option Nat)
    (isFullScreen : Bool) (s : ResizableSize) :
    containerWidthEffect refMounted element containerWidth
        (containerWidthEffect refMounted element containerWidth s) =
      containerWidthEffect refMounted element containerWidth s ∧
    numRowsEffect refMounted element numRows containerWidth
        containerHeight
        (numRowsEffect refMounted element numRows containerWidth
          containerHeight s) =
      numRowsEffect refMounted element numRows containerWidth
        containerHeight s ∧
    fullScreenEffect refMounted element numRows containerWidth
        containerHeight isFullScreen
        (fullScreenEffect refMounted element numRows containerWidth
          containerHeight isFullScreen s) =
      fullScreenEffect refMounted element numRows containerWidth
        containerHeight isFullScreen s := by
  refine ⟨?_, ?_, ?_⟩
  · by_cases h : refMounted = true ∧ element.useContainerWidth = true ∧
        s.width = SizeWidth.fillContainer
    · simp [containerWidthEffect, h]
    · simp [containerWidthEffect, h]
  · cases refMounted <;> simp [numRowsEffect]
  · cases refMounted <;> cases isFullScreen <;> simp [fullScreenEffect]
